import Mathlib

/-!
Shallow embedding of the retry / confirmation helpers of the
saros-sdk-documentation examples, together with the arithmetic helpers the
examples define, and proofs of the spec's testable properties about them.

The embedded functions are:
* executeSwapWithRetry   (src/examples/basic-swap.ts, lines 231-261)
* sendAndConfirmWithRetry (troubleshooting guide, lines 322-355)
* swapWithRetry          (troubleshooting guide, lines 379-399)
* calculateDynamicSlippage (troubleshooting guide, lines 365-376)
* calculatePositionParams (src/examples/basic-swap.ts DLMM part, lines 471-488)

The underlying SDK operation is opaque in the source (a network call); it is
modelled as a function from the attempt number to the attempt's outcome
(success value or thrown error), which is exactly the "sequence of outcomes"
the properties quantify over.  Each bounded loop is compiled to structural
recursion on the remaining number of allowed iterations (the loop bound minus
the attempt counter), so every definition is executable.
-/

deriving instance DecidableEq for Except

/-- Boolean success test on an attempt outcome. -/
def exOk {ε α : Type} : Except ε α → Bool
  | Except.ok _ => true
  | Except.error _ => false

/-- Error thrown by executeSwapWithRetry after the loop exhausts all attempts:
the source throws new Error with the message
"All (maxRetries) attempts failed. Last error: (lastError?.message)", wrapping
the last observed error; lastError starts as null, modelled by none. -/
inductive SwapRetryError (ε : Type) where
  | retriesExhausted (lastError : Option ε)
deriving DecidableEq

/-- Slippage passed to executeSwap on a given attempt in executeSwapWithRetry:
the source line is: const slippageBps = 50 + (attempt - 1) * 25. -/
def slippageBps (attempt : Nat) : Nat := 50 + (attempt - 1) * 25

/-- Observable trace of one call to executeSwapWithRetry: the returned value or
thrown error, the slippageBps value passed on each executeSwap call in order,
and the number of 2000 ms waits performed. -/
structure ExecTrace (ε α : Type) where
  result : Except (SwapRetryError ε) α
  calls : List Nat
  delays : Nat
deriving DecidableEq

/-- Loop body of executeSwapWithRetry: for (attempt = 1; attempt <= maxRetries;
attempt++) try executeSwap with the attempt's slippage and return its value,
catching any error into lastError and, when attempt < maxRetries, waiting
2000 ms; when the loop ends, throw the exhaustion error wrapping lastError.
The recursion is on fuel = maxRetries + 1 - attempt, the number of loop
iterations still allowed. -/
def executeSwapWithRetryLoop {ε α : Type} (outcomes : Nat → Except ε α)
    (maxRetries : Nat) : Nat → Nat → Option ε → ExecTrace ε α
  | 0, _, lastError => ⟨Except.error (SwapRetryError.retriesExhausted lastError), [], 0⟩
  | fuel + 1, attempt, _ =>
    match outcomes attempt with
    | Except.ok v => ⟨Except.ok v, [slippageBps attempt], 0⟩
    | Except.error e =>
      let rest := executeSwapWithRetryLoop outcomes maxRetries fuel (attempt + 1) (some e)
      ⟨rest.result, slippageBps attempt :: rest.calls,
        (if attempt < maxRetries then 1 else 0) + rest.delays⟩

/-- executeSwapWithRetry from src/examples/basic-swap.ts: attempts start at 1,
lastError starts as null, and the loop may run maxRetries times. -/
def executeSwapWithRetry {ε α : Type} (outcomes : Nat → Except ε α)
    (maxRetries : Nat) : ExecTrace ε α :=
  executeSwapWithRetryLoop outcomes maxRetries maxRetries 1 none

/-- Observable trace of one call to sendAndConfirmWithRetry: the returned
signature or rethrown error (ok none models falling off the while loop, which
returns undefined), the number of sendAndConfirmTransaction calls, and the
number of 2000 ms waits. -/
structure SendTrace (ε α : Type) where
  result : Except ε (Option α)
  calls : Nat
  delays : Nat
deriving DecidableEq

/-- Loop body of sendAndConfirmWithRetry: while (attempt < maxRetries) try
sendAndConfirmTransaction and return its signature; on error increment attempt
and, if attempt < maxRetries, wait 2000 ms and loop, else rethrow the error.
The counter attempt counts failures so far, so the n-th call happens with
attempt = n - 1; the recursion is on fuel = maxRetries - attempt. -/
def sendAndConfirmWithRetryLoop {ε α : Type} (outcomes : Nat → Except ε α)
    (maxRetries : Nat) : Nat → Nat → SendTrace ε α
  | 0, _ => ⟨Except.ok none, 0, 0⟩
  | fuel + 1, attempt =>
    match outcomes (attempt + 1) with
    | Except.ok v => ⟨Except.ok (some v), 1, 0⟩
    | Except.error e =>
      if attempt + 1 < maxRetries then
        let rest := sendAndConfirmWithRetryLoop outcomes maxRetries fuel (attempt + 1)
        ⟨rest.result, rest.calls + 1, rest.delays + 1⟩
      else ⟨Except.error e, 1, 0⟩

/-- sendAndConfirmWithRetry from the troubleshooting guide: attempt starts at
0 and the while loop runs while attempt < maxRetries. -/
def sendAndConfirmWithRetry {ε α : Type} (outcomes : Nat → Except ε α)
    (maxRetries : Nat) : SendTrace ε α :=
  sendAndConfirmWithRetryLoop outcomes maxRetries maxRetries 0

/-- Error thrown inside swapWithRetry's try block; isSlippage models whether
error.message.includes with the word slippage holds, and code distinguishes
concrete errors. -/
structure SwapErr where
  isSlippage : Bool
  code : Nat
deriving DecidableEq

/-- Observable trace of one call to swapWithRetry: the returned value or
rethrown error (ok none models falling off the for loop, which returns
undefined), and the slippageBps value (slippage * 100) passed to getSwapQuote
on each iteration, in order. -/
structure SwapTrace (α : Type) where
  result : Except SwapErr (Option α)
  calls : List ℚ
deriving DecidableEq

/-- Loop body of swapWithRetry: for (i = 0; i < maxRetries; i++) try
getSwapQuote with slippageBps = slippage * 100 and return the swap's value;
on an error whose message includes the word slippage, add 0.5 to slippage and
loop; on any other error rethrow it.  The recursion is on
fuel = maxRetries - i. -/
def swapWithRetryLoop {α : Type} (outcomes : Nat → Except SwapErr α) :
    Nat → Nat → ℚ → SwapTrace α
  | 0, _, _ => ⟨Except.ok none, []⟩
  | fuel + 1, i, slippage =>
    match outcomes i with
    | Except.ok v => ⟨Except.ok (some v), [slippage * 100]⟩
    | Except.error e =>
      if e.isSlippage then
        let rest := swapWithRetryLoop outcomes fuel (i + 1) (slippage + 0.5)
        ⟨rest.result, slippage * 100 :: rest.calls⟩
      else ⟨Except.error e, [slippage * 100]⟩

/-- swapWithRetry from the troubleshooting guide: slippage starts at 0.5 (in
percent) and the for loop index starts at 0. -/
def swapWithRetry {α : Type} (outcomes : Nat → Except SwapErr α)
    (maxRetries : Nat) : SwapTrace α :=
  swapWithRetryLoop outcomes maxRetries 0 0.5

/-- calculateDynamicSlippage from the troubleshooting guide: start from a base
of 0.5, add 0.5 when priceImpact > 2, a further 1.0 when priceImpact > 5, add
volatility * 0.1, and cap the result at 5.0. -/
def calculateDynamicSlippage (priceImpact volatility : ℚ) : ℚ :=
  let slippage : ℚ := 0.5
  let slippage := if 2 < priceImpact then slippage + 0.5 else slippage
  let slippage := if 5 < priceImpact then slippage + 1.0 else slippage
  let slippage := slippage + volatility * 0.1
  min slippage 5.0

/-- Position-range strategy of calculatePositionParams. -/
inductive Strategy where
  | tight
  | medium
  | wide
deriving DecidableEq

/-- Half-width in bins chosen by calculatePositionParams for each strategy:
the ranges record of the source (tight 5, medium 10, wide 20). -/
def strategyRange : Strategy → ℤ
  | Strategy.tight => 5
  | Strategy.medium => 10
  | Strategy.wide => 20

/-- calculatePositionParams from the DLMM example: returns
(activeBin - range, activeBin + range) where range is the strategy's
half-width; the binStep argument is received but never used. -/
def calculatePositionParams (activeBin : ℤ) (binStep : ℤ)
    (strategy : Strategy) : ℤ × ℤ :=
  (activeBin - strategyRange strategy, activeBin + strategyRange strategy)

/-- Number of attempts among the first n (the calls actually made, attempts
being numbered from 1) that failed and were not the final allowed attempt:
exactly the attempts after which the code waits the fixed 2000 ms delay. -/
def failedNonFinal {ε α : Type} (outcomes : Nat → Except ε α)
    (maxRetries n : Nat) : Nat :=
  ((List.range' 1 n).filter
    (fun a => !exOk (outcomes a) && decide (a < maxRetries))).length

theorem executeSwapWithRetryLoop_calls_length_le {ε α : Type}
    (o : Nat → Except ε α) (m : Nat) :
    ∀ fuel a l, (executeSwapWithRetryLoop o m fuel a l).calls.length ≤ fuel := by
  intro fuel
  induction fuel with
  | zero => intro a l; simp [executeSwapWithRetryLoop]
  | succ n ih =>
    intro a l
    cases h : o a with
    | ok v => simp [executeSwapWithRetryLoop, h]
    | error e =>
      simp only [executeSwapWithRetryLoop, h, List.length_cons]
      exact Nat.succ_le_succ (ih (a + 1) (some e))

theorem sendAndConfirmWithRetryLoop_calls_le {ε α : Type}
    (o : Nat → Except ε α) (m : Nat) :
    ∀ fuel a, (sendAndConfirmWithRetryLoop o m fuel a).calls ≤ fuel := by
  intro fuel
  induction fuel with
  | zero => intro a; simp [sendAndConfirmWithRetryLoop]
  | succ n ih =>
    intro a
    cases h : o (a + 1) with
    | ok v => simp [sendAndConfirmWithRetryLoop, h]
    | error e =>
      by_cases hlt : a + 1 < m
      · simp only [sendAndConfirmWithRetryLoop, h, if_pos hlt]
        exact Nat.succ_le_succ (ih (a + 1))
      · simp only [sendAndConfirmWithRetryLoop, h, if_neg hlt]
        omega

theorem executeSwapWithRetryLoop_delays {ε α : Type}
    (o : Nat → Except ε α) (m : Nat) :
    ∀ fuel a l, (executeSwapWithRetryLoop o m fuel a l).delays =
      ((List.range' a (executeSwapWithRetryLoop o m fuel a l).calls.length).filter
        (fun x => !exOk (o x) && decide (x < m))).length := by
  intro fuel
  induction fuel with
  | zero => intro a l; simp [executeSwapWithRetryLoop]
  | succ n ih =>
    intro a l
    cases h : o a with
    | ok v => simp [executeSwapWithRetryLoop, h, exOk, List.range'_one]
    | error e =>
      simp only [executeSwapWithRetryLoop, h, List.length_cons, List.range'_succ,
        List.filter_cons]
      by_cases hlt : a < m
      · simp [exOk, h, hlt, ih (a + 1) (some e)]
        omega
      · simp [exOk, h, hlt, ih (a + 1) (some e)]

theorem sendAndConfirmWithRetryLoop_delays {ε α : Type}
    (o : Nat → Except ε α) (m : Nat) :
    ∀ fuel a, (sendAndConfirmWithRetryLoop o m fuel a).delays =
      ((List.range' (a + 1) (sendAndConfirmWithRetryLoop o m fuel a).calls).filter
        (fun x => !exOk (o x) && decide (x < m))).length := by
  intro fuel
  induction fuel with
  | zero => intro a; simp [sendAndConfirmWithRetryLoop]
  | succ n ih =>
    intro a
    cases h : o (a + 1) with
    | ok v => simp [sendAndConfirmWithRetryLoop, h, exOk, List.range'_one]
    | error e =>
      by_cases hlt : a + 1 < m
      · simp only [sendAndConfirmWithRetryLoop, h, if_pos hlt, List.range'_succ,
          List.filter_cons]
        simp [exOk, hlt, h, ih (a + 1)]
      · simp only [sendAndConfirmWithRetryLoop, h, if_neg hlt]
        simp [exOk, hlt, h, List.range'_one]

theorem executeSwapWithRetryLoop_success {ε α : Type} (o : Nat → Except ε α)
    (m : Nat) (v : α) (k : Nat) (hok : o k = Except.ok v) :
    ∀ fuel a l, a ≤ k → k < a + fuel →
      (∀ j, a ≤ j → j < k → exOk (o j) = false) →
      (executeSwapWithRetryLoop o m fuel a l).result = Except.ok v ∧
      (executeSwapWithRetryLoop o m fuel a l).calls.length = k + 1 - a := by
  intro fuel
  induction fuel with
  | zero => intro a l hak hk hfail; omega
  | succ n ih =>
    intro a l hak hk hfail
    rcases Nat.eq_or_lt_of_le hak with rfl | hlt
    · simp only [executeSwapWithRetryLoop, hok, List.length_cons, List.length_nil]
      exact ⟨trivial, by omega⟩
    · have hfa : exOk (o a) = false := hfail a le_rfl hlt
      cases h : o a with
      | ok w => rw [h] at hfa; simp [exOk] at hfa
      | error e =>
        obtain ⟨ih1, ih2⟩ := ih (a + 1) (some e) (by omega) (by omega)
          (fun j hj1 hj2 => hfail j (by omega) hj2)
        simp only [executeSwapWithRetryLoop, h, List.length_cons]
        exact ⟨ih1, by omega⟩

theorem executeSwapWithRetryLoop_allfail {ε α : Type} (o : Nat → Except ε α)
    (m : Nat) (elast : ε) (hlast : o m = Except.error elast)
    (hfail : ∀ j, 1 ≤ j → j < m → exOk (o j) = false) :
    ∀ fuel a l, fuel = m + 1 - a → 1 ≤ a → a ≤ m →
      (executeSwapWithRetryLoop o m fuel a l).result =
        Except.error (SwapRetryError.retriesExhausted (some elast)) := by
  intro fuel
  induction fuel with
  | zero => intro a l hfuel h1 h2; omega
  | succ n ih =>
    intro a l hfuel h1 h2
    rcases Nat.eq_or_lt_of_le h2 with heq | hlt
    · subst heq
      have hn : n = 0 := by omega
      subst hn
      simp [executeSwapWithRetryLoop, hlast]
    · have hfa : exOk (o a) = false := hfail a h1 hlt
      cases h : o a with
      | ok w => rw [h] at hfa; simp [exOk] at hfa
      | error e =>
        simp only [executeSwapWithRetryLoop, h]
        exact ih (a + 1) (some e) (by omega) (by omega) (by omega)

theorem executeSwapWithRetryLoop_error_allfail {ε α : Type}
    (o : Nat → Except ε α) (m : Nat) :
    ∀ fuel a l err,
      (executeSwapWithRetryLoop o m fuel a l).result = Except.error err →
      ∀ j, a ≤ j → j < a + fuel → exOk (o j) = false := by
  intro fuel
  induction fuel with
  | zero => intro a l err hres j hj1 hj2; omega
  | succ n ih =>
    intro a l err hres j hj1 hj2
    cases h : o a with
    | ok v => simp [executeSwapWithRetryLoop, h] at hres
    | error e =>
      rcases Nat.eq_or_lt_of_le hj1 with rfl | hlt
      · simp [exOk, h]
      · simp only [executeSwapWithRetryLoop, h] at hres
        exact ih (a + 1) (some e) err hres j (by omega) (by omega)

theorem sendAndConfirmWithRetryLoop_allfail {ε α : Type} (o : Nat → Except ε α)
    (m : Nat) (elast : ε) (hlast : o m = Except.error elast)
    (hfail : ∀ j, 1 ≤ j → j < m → exOk (o j) = false) :
    ∀ fuel a, fuel = m - a → a < m →
      (sendAndConfirmWithRetryLoop o m fuel a).result = Except.error elast := by
  intro fuel
  induction fuel with
  | zero => intro a hfuel hlt; omega
  | succ n ih =>
    intro a hfuel hlt
    by_cases heq : a + 1 = m
    · subst heq
      have hnot : ¬ (a + 1 < a + 1) := by omega
      simp [sendAndConfirmWithRetryLoop, hlast, hnot]
    · have hlt2 : a + 1 < m := by omega
      have hfa : exOk (o (a + 1)) = false := hfail (a + 1) (by omega) hlt2
      cases h : o (a + 1) with
      | ok w => rw [h] at hfa; simp [exOk] at hfa
      | error e =>
        simp only [sendAndConfirmWithRetryLoop, h, if_pos hlt2]
        exact ih (a + 1) (by omega) hlt2

/-- C2: if the underlying operation fails on the first k-1 attempts and
succeeds on attempt k with k at most maxAttempts, executeSwapWithRetry returns
that attempt's result value and makes exactly k calls (k-1 failures then one
success), so no further invocations happen after the success. -/
theorem retry_returns_first_success {ε α : Type} (o : Nat → Except ε α)
    (m k : Nat) (v : α) (hk1 : 1 ≤ k) (hkm : k ≤ m)
    (hfail : ∀ j, 1 ≤ j → j < k → exOk (o j) = false)
    (hok : o k = Except.ok v) :
    (executeSwapWithRetry o m).result = Except.ok v ∧
    (executeSwapWithRetry o m).calls.length = k := by
  obtain ⟨h1, h2⟩ := executeSwapWithRetryLoop_success o m v k hok m 1 none hk1
    (by omega) (fun j hj1 hj2 => hfail j hj1 hj2)
  refine ⟨h1, ?_⟩
  show (executeSwapWithRetryLoop o m m 1 none).calls.length = k
  omega

theorem retry_returns_first_success_witness :
    (executeSwapWithRetry
        (fun n => if n = 2 then Except.ok 99 else (Except.error n : Except Nat Nat))
        3).result = Except.ok 99 ∧
    (executeSwapWithRetry
        (fun n => if n = 2 then Except.ok 99 else (Except.error n : Except Nat Nat))
        3).calls.length = 2 :=
  retry_returns_first_success
    (fun n => if n = 2 then Except.ok 99 else (Except.error n : Except Nat Nat))
    3 2 99 (by decide) (by decide)
    (by intro j h1 h2
        have hj : j = 1 := by omega
        subst hj
        rfl)
    rfl

/-- C4: if the underlying operation fails on every one of the maxAttempts
attempts, executeSwapWithRetry throws the exhaustion error wrapping the final
attempt's error and sendAndConfirmWithRetry rethrows the final attempt's
error; moreover an error outcome of executeSwapWithRetry is only possible when
every attempt failed, so intermediate failures become visible to the caller
only through exhaustion. -/
theorem retries_exhausted_wraps_final_error {ε α : Type} (o : Nat → Except ε α)
    (m : Nat) (elast : ε) (hm : 1 ≤ m)
    (hfail : ∀ j, 1 ≤ j → j < m → exOk (o j) = false)
    (hlast : o m = Except.error elast) :
    (executeSwapWithRetry o m).result =
      Except.error (SwapRetryError.retriesExhausted (some elast)) ∧
    (sendAndConfirmWithRetry o m).result = Except.error elast ∧
    ∀ (o2 : Nat → Except ε α) (err : SwapRetryError ε),
      (executeSwapWithRetry o2 m).result = Except.error err →
      ∀ j, 1 ≤ j → j ≤ m → exOk (o2 j) = false := by
  refine ⟨?_, ?_, ?_⟩
  · exact executeSwapWithRetryLoop_allfail o m elast hlast hfail m 1 none
      (by omega) le_rfl hm
  · exact sendAndConfirmWithRetryLoop_allfail o m elast hlast hfail m 0
      (by omega) hm
  · intro o2 err hres j hj1 hj2
    exact executeSwapWithRetryLoop_error_allfail o2 m m 1 none err hres j hj1
      (by omega)

theorem retries_exhausted_wraps_final_error_witness :
    (executeSwapWithRetry (fun n => (Except.error n : Except Nat Unit)) 3).result =
      Except.error (SwapRetryError.retriesExhausted (some 3)) ∧
    (sendAndConfirmWithRetry (fun n => (Except.error n : Except Nat Unit)) 3).result =
      Except.error 3 :=
  ⟨(retries_exhausted_wraps_final_error (fun n => (Except.error n : Except Nat Unit))
      3 3 (by decide) (fun j h1 h2 => rfl) rfl).1,
   (retries_exhausted_wraps_final_error (fun n => (Except.error n : Except Nat Unit))
      3 3 (by decide) (fun j h1 h2 => rfl) rfl).2.1⟩

/-- C1: for every maxAttempts at least 1 and every sequence of outcomes of the
underlying operation, executeSwapWithRetry and sendAndConfirmWithRetry invoke
the underlying operation at most maxAttempts times. -/
theorem retry_at_most_max_attempts {ε α : Type} (o : Nat → Except ε α)
    (m : Nat) (hm : 1 ≤ m) :
    (executeSwapWithRetry o m).calls.length ≤ m ∧
    (sendAndConfirmWithRetry o m).calls ≤ m :=
  ⟨executeSwapWithRetryLoop_calls_length_le o m m 1 none,
   sendAndConfirmWithRetryLoop_calls_le o m m 0⟩

theorem retry_at_most_max_attempts_witness :
    (1 : Nat) ≤ 3 ∧
    (executeSwapWithRetry (fun n => (Except.error n : Except Nat Unit)) 3).calls.length ≤ 3 ∧
    (sendAndConfirmWithRetry (fun n => (Except.error n : Except Nat Unit)) 3).calls ≤ 3 :=
  ⟨by decide,
   (retry_at_most_max_attempts (fun n => (Except.error n : Except Nat Unit)) 3 (by decide)).1,
   (retry_at_most_max_attempts (fun n => (Except.error n : Except Nat Unit)) 3 (by decide)).2⟩

/-- C7: the 2000 ms delay is taken only between two consecutive attempts:
neither after a successful attempt nor after the final failed attempt, so the
number of delay waits equals the number of failed non-final attempts, in both
executeSwapWithRetry and sendAndConfirmWithRetry. -/
theorem delay_only_between_attempts {ε α : Type} (o : Nat → Except ε α)
    (m : Nat) :
    (executeSwapWithRetry o m).delays =
      failedNonFinal o m (executeSwapWithRetry o m).calls.length ∧
    (sendAndConfirmWithRetry o m).delays =
      failedNonFinal o m (sendAndConfirmWithRetry o m).calls :=
  ⟨executeSwapWithRetryLoop_delays o m m 1 none,
   sendAndConfirmWithRetryLoop_delays o m m 0⟩

/-- C8: for every pair of non-negative inputs, calculateDynamicSlippage is at
least the base 0.5 and at most the cap 5.0, and it is monotonically
non-decreasing in both arguments. -/
theorem dynamic_slippage_bounds_monotone (p v : ℚ) (hp : 0 ≤ p) (hv : 0 ≤ v) :
    0.5 ≤ calculateDynamicSlippage p v ∧ calculateDynamicSlippage p v ≤ 5.0 ∧
    ∀ p2 v2 : ℚ, p ≤ p2 → v ≤ v2 →
      calculateDynamicSlippage p v ≤ calculateDynamicSlippage p2 v2 := by
  have hv01 : (0 : ℚ) ≤ v * 0.1 := mul_nonneg hv (by norm_num)
  refine ⟨?_, ?_, ?_⟩
  · simp only [calculateDynamicSlippage]
    refine le_min ?_ (by norm_num)
    split_ifs <;> linarith
  · simp only [calculateDynamicSlippage]
    exact min_le_right _ _
  · intro p2 v2 hpp hvv
    have hmul : v * 0.1 ≤ v2 * 0.1 := by
      have : (0 : ℚ) ≤ 0.1 := by norm_num
      exact mul_le_mul_of_nonneg_right hvv this
    simp only [calculateDynamicSlippage]
    refine min_le_min ?_ le_rfl
    split_ifs <;> linarith

theorem dynamic_slippage_bounds_monotone_witness :
    (0 : ℚ) ≤ 1 ∧ (0 : ℚ) ≤ 2 ∧
    0.5 ≤ calculateDynamicSlippage 1 2 ∧ calculateDynamicSlippage 1 2 ≤ 5.0 :=
  ⟨by norm_num, by norm_num,
   (dynamic_slippage_bounds_monotone 1 2 (by norm_num) (by norm_num)).1,
   (dynamic_slippage_bounds_monotone 1 2 (by norm_num) (by norm_num)).2.1⟩

/-- C9: for every activeBin and every strategy, calculatePositionParams
returns a bin range symmetric about activeBin, with the lower bin strictly
below the upper bin, of half-width 5, 10 or 20 bins for the tight, medium and
wide strategies respectively, independent of the binStep argument. -/
theorem position_params_symmetric (activeBin binStep : ℤ) (s : Strategy) :
    (calculatePositionParams activeBin binStep s).1 +
        (calculatePositionParams activeBin binStep s).2 = 2 * activeBin ∧
    (calculatePositionParams activeBin binStep s).1 <
        (calculatePositionParams activeBin binStep s).2 ∧
    (calculatePositionParams activeBin binStep s).2 - activeBin =
        strategyRange s ∧
    activeBin - (calculatePositionParams activeBin binStep s).1 =
        strategyRange s ∧
    strategyRange Strategy.tight = 5 ∧ strategyRange Strategy.medium = 10 ∧
    strategyRange Strategy.wide = 20 ∧
    ∀ binStep2 : ℤ, calculatePositionParams activeBin binStep2 s =
      calculatePositionParams activeBin binStep s := by
  cases s <;>
    · simp only [calculatePositionParams, strategyRange]
      refine ⟨by ring, by omega, by ring, by ring, trivial, trivial, trivial,
        fun b2 => trivial⟩

/-- C10: when executeSwapWithRetry is called with maxRetries below 1, the
underlying operation is invoked zero times and the exhaustion error is still
thrown, with lastError still null. -/
theorem zero_max_retries_no_calls {ε α : Type} (o : Nat → Except ε α)
    (m : Nat) (hm : m < 1) :
    executeSwapWithRetry o m =
      ⟨Except.error (SwapRetryError.retriesExhausted none), [], 0⟩ := by
  obtain rfl : m = 0 := by omega
  rfl

theorem zero_max_retries_no_calls_witness :
    (0 : Nat) < 1 ∧
    executeSwapWithRetry (fun n => (Except.error n : Except Nat Unit)) 0 =
      ⟨Except.error (SwapRetryError.retriesExhausted none), [], 0⟩ :=
  ⟨by decide,
   zero_max_retries_no_calls (fun n => (Except.error n : Except Nat Unit)) 0 (by decide)⟩

theorem executeSwapWithRetryLoop_head {ε α : Type} (o : Nat → Except ε α)
    (m : Nat) :
    ∀ fuel a l, 0 < fuel →
      ((executeSwapWithRetryLoop o m fuel a l).calls).head? =
        some (slippageBps a) := by
  intro fuel a l hf
  cases fuel with
  | zero => omega
  | succ n =>
    cases h : o a with
    | ok v => simp [executeSwapWithRetryLoop, h]
    | error e => simp [executeSwapWithRetryLoop, h]

theorem executeSwapWithRetryLoop_chain {ε α : Type} (o : Nat → Except ε α)
    (m : Nat) :
    ∀ fuel a l, 1 ≤ a →
      List.Chain' (fun x y => y = x + 25)
        ((executeSwapWithRetryLoop o m fuel a l).calls) := by
  intro fuel
  induction fuel with
  | zero => intro a l ha; simp [executeSwapWithRetryLoop]
  | succ n ih =>
    intro a l ha
    cases h : o a with
    | ok v => simp [executeSwapWithRetryLoop, h]
    | error e =>
      simp only [executeSwapWithRetryLoop, h]
      rw [List.chain'_cons']
      refine ⟨?_, ih (a + 1) (some e) (by omega)⟩
      intro y hy
      cases n with
      | zero => simp [executeSwapWithRetryLoop] at hy
      | succ n2 =>
        rw [executeSwapWithRetryLoop_head o m (n2 + 1) (a + 1) (some e)
          (by omega)] at hy
        simp only [Option.mem_def, Option.some.injEq] at hy
        subst hy
        simp only [slippageBps]
        omega

theorem swapWithRetryLoop_head {α : Type} (o : Nat → Except SwapErr α) :
    ∀ fuel i s, 0 < fuel →
      ((swapWithRetryLoop o fuel i s).calls).head? = some (s * 100) := by
  intro fuel i s hf
  cases fuel with
  | zero => omega
  | succ n =>
    cases h : o i with
    | ok v => simp [swapWithRetryLoop, h]
    | error e =>
      by_cases hs : e.isSlippage
      · simp [swapWithRetryLoop, h, hs]
      · simp [swapWithRetryLoop, h, hs]

theorem swapWithRetryLoop_chain {α : Type} (o : Nat → Except SwapErr α) :
    ∀ fuel i s, List.Chain' (fun x y => y = x + 50)
      ((swapWithRetryLoop o fuel i s).calls) := by
  intro fuel
  induction fuel with
  | zero => intro i s; simp [swapWithRetryLoop]
  | succ n ih =>
    intro i s
    cases h : o i with
    | ok v => simp [swapWithRetryLoop, h]
    | error e =>
      by_cases hs : e.isSlippage
      · simp only [swapWithRetryLoop, h, hs, if_true]
        rw [List.chain'_cons']
        refine ⟨?_, ih (i + 1) (s + 0.5)⟩
        intro y hy
        cases n with
        | zero => simp [swapWithRetryLoop] at hy
        | succ n2 =>
          rw [swapWithRetryLoop_head o (n2 + 1) (i + 1) (s + 0.5) (by omega)] at hy
          simp only [Option.mem_def, Option.some.injEq] at hy
          subst hy
          ring
      · simp [swapWithRetryLoop, h, hs]

/-- C3 counterexample: in executeSwapWithRetry the slippage is not capped at
the 5.0 percent ceiling: with maxRetries = 20 and an always-failing operation
the 20th attempt passes slippageBps 525, above 500 (5.0 percent). -/
theorem tolerance_cap_counterexample :
    ¬ (∀ s ∈ (executeSwapWithRetry
        (fun n => (Except.error n : Except Nat Unit)) 20).calls, s ≤ 500) := by
  decide

/-- C3 (amended): across the attempts of one call the tolerance passed to the
underlying operation strictly increases by the fixed step after each failed
attempt (25 bps per attempt in executeSwapWithRetry, 50 bps, that is 0.5
percent, per slippage failure in swapWithRetry); neither loop caps it at a
ceiling, so it can exceed 5.0 percent for large enough maxAttempts. -/
theorem tolerance_strictly_increases {ε α β : Type} (o : Nat → Except ε α)
    (m : Nat) (o2 : Nat → Except SwapErr β) (m2 : Nat) :
    List.Chain' (fun x y => y = x + 25) (executeSwapWithRetry o m).calls ∧
    List.Chain' (fun x y => y = x + 50) (swapWithRetry o2 m2).calls :=
  ⟨executeSwapWithRetryLoop_chain o m m 1 none le_rfl,
   swapWithRetryLoop_chain o2 m2 0 0.5⟩

theorem executeSwapWithRetryLoop_calls_pos {ε α : Type} (o : Nat → Except ε α)
    (m fuel a : Nat) (l : Option ε) (hf : 0 < fuel) :
    0 < (executeSwapWithRetryLoop o m fuel a l).calls.length := by
  cases fuel with
  | zero => omega
  | succ n =>
    cases h : o a with
    | ok v => simp [executeSwapWithRetryLoop, h]
    | error e => simp [executeSwapWithRetryLoop, h]

theorem sendAndConfirmWithRetryLoop_calls_pos {ε α : Type} (o : Nat → Except ε α)
    (m fuel a : Nat) (hf : 0 < fuel) :
    0 < (sendAndConfirmWithRetryLoop o m fuel a).calls := by
  cases fuel with
  | zero => omega
  | succ n =>
    cases h : o (a + 1) with
    | ok v => simp [sendAndConfirmWithRetryLoop, h]
    | error e =>
      by_cases hlt : a + 1 < m
      · simp [sendAndConfirmWithRetryLoop, h, hlt]
      · simp [sendAndConfirmWithRetryLoop, h, hlt]

/-- C5 counterexample: swapWithRetry does not treat all failures identically:
a failure whose message does not mention slippage (a network error or timeout)
propagates immediately after a single call, instead of triggering retries
until exhaustion (3 calls). -/
theorem error_uniformity_counterexample :
    (swapWithRetry (fun _ => (Except.error ⟨false, 7⟩ : Except SwapErr Unit))
        3).result = Except.error ⟨false, 7⟩ ∧
    (swapWithRetry (fun _ => (Except.error ⟨false, 7⟩ : Except SwapErr Unit))
        3).calls.length = 1 ∧
    ¬ (swapWithRetry (fun _ => (Except.error ⟨false, 7⟩ : Except SwapErr Unit))
        3).calls.length = 3 := by
  refine ⟨by decide, by decide, by decide⟩

/-- C5 (amended): executeSwapWithRetry and sendAndConfirmWithRetry retry every
kind of failure (a failed first attempt is always followed by a second call
when maxAttempts is at least 2), but swapWithRetry retries only failures whose
message includes the word slippage: any other failure propagates immediately
to the caller after a single call. -/
theorem retry_error_routing {ε α β : Type} (o1 : Nat → Except SwapErr α)
    (o2 : Nat → Except ε β) (m : Nat) (e1 : SwapErr) (e2 : ε)
    (hm : 2 ≤ m) (h1 : o1 0 = Except.error e1) (hns : e1.isSlippage = false)
    (h2 : o2 1 = Except.error e2) :
    (swapWithRetry o1 m).result = Except.error e1 ∧
    (swapWithRetry o1 m).calls.length = 1 ∧
    2 ≤ (executeSwapWithRetry o2 m).calls.length ∧
    2 ≤ (sendAndConfirmWithRetry o2 m).calls := by
  obtain ⟨n, rfl⟩ : ∃ n, m = n + 1 := ⟨m - 1, by omega⟩
  have hn : 1 ≤ n := by omega
  refine ⟨?_, ?_, ?_, ?_⟩
  · simp [swapWithRetry, swapWithRetryLoop, h1, hns]
  · simp [swapWithRetry, swapWithRetryLoop, h1, hns]
  · have hpos := executeSwapWithRetryLoop_calls_pos o2 (n + 1) n (1 + 1) (some e2)
      (by omega)
    simp only [executeSwapWithRetry, executeSwapWithRetryLoop, h2,
      List.length_cons]
    omega
  · have hpos := sendAndConfirmWithRetryLoop_calls_pos o2 (n + 1) n 1 (by omega)
    have hlt : 0 + 1 < n + 1 := by omega
    simp only [sendAndConfirmWithRetry, sendAndConfirmWithRetryLoop,
      Nat.zero_add, h2, if_pos (by omega : (1 : Nat) < n + 1)]
    omega

theorem retry_error_routing_witness :
    (swapWithRetry (fun _ => (Except.error ⟨false, 9⟩ : Except SwapErr Unit))
        2).result = Except.error ⟨false, 9⟩ ∧
    (swapWithRetry (fun _ => (Except.error ⟨false, 9⟩ : Except SwapErr Unit))
        2).calls.length = 1 ∧
    2 ≤ (executeSwapWithRetry (fun n => (Except.error n : Except Nat Unit))
        2).calls.length ∧
    2 ≤ (sendAndConfirmWithRetry (fun n => (Except.error n : Except Nat Unit))
        2).calls :=
  retry_error_routing (fun _ => (Except.error ⟨false, 9⟩ : Except SwapErr Unit))
    (fun n => (Except.error n : Except Nat Unit)) 2 ⟨false, 9⟩ 1
    (by decide) rfl rfl rfl

/-- C6 counterexample: with maxAttempts = 3 and an always-failing operation,
the slippage values executeSwapWithRetry passes are 50, 75 and 100 bps (0.5,
0.75 and 1.0 percent), not the 50, 100 and 150 bps (0.5, 1.0 and 1.5 percent)
progression the claim states. -/
theorem three_attempt_tolerances_counterexample :
    (executeSwapWithRetry (fun n => (Except.error n : Except Nat Unit)) 3).calls =
      [50, 75, 100] ∧
    ¬ (executeSwapWithRetry (fun n => (Except.error n : Except Nat Unit)) 3).calls =
      [50, 100, 150] := by
  decide

/-- C6 (amended): with maxRetries = 3 and an operation failing on every
attempt, executeSwapWithRetry makes exactly 3 calls with slippage 50, 75 and
100 bps (0.5, 0.75 and 1.0 percent), waits twice, and throws the exhaustion
error wrapping attempt 3's failure. -/
theorem three_attempt_scenario {ε α : Type} (errs : Nat → ε) :
    executeSwapWithRetry (fun n => (Except.error (errs n) : Except ε α)) 3 =
      ⟨Except.error (SwapRetryError.retriesExhausted (some (errs 3))),
       [50, 75, 100], 2⟩ := rfl
